import Mathlib

/-!
Shallow embedding of the social graph and feed engine of the repository
(`app/services/social_service.py` together with the ORM models in
`app/models/social.py` and the Pydantic schemas in `app/schemas/social.py`).

The database session is modelled as an explicit `DBState`: each table is a
list of rows kept in insertion order (SQLite rowid order), together with the
next auto-increment primary key per table and a clock supplying
`func.now()` timestamps.  Each service method becomes a function from inputs
and a `DBState` to a result paired with the successor state.  A method of
the source that returns `None` (either on a guard or in its
`except`-and-rollback branch) is modelled as returning `none` with the
corresponding state (`rollback` restores the pre-call state).
-/

namespace Social

/-- `ConnectionStatus` from `app/models/social.py`: PENDING / ACCEPTED / DECLINED. -/
inductive ConnectionStatus where
  | pending
  | accepted
  | declined
deriving DecidableEq

/-- A row of the `connections` table (`Connection` model).  `updated_at` is
omitted: no claim depends on it. -/
structure Connection where
  id : Nat
  requester_id : Nat
  addressee_id : Nat
  status : ConnectionStatus
  message : Option String
  created_at : Nat
deriving DecidableEq

/-- A row of the `posts` table (`Post` model); `image_url`/`updated_at` omitted
(no claim depends on them). -/
structure Post where
  id : Nat
  user_id : Nat
  content : String
  created_at : Nat
deriving DecidableEq

/-- A row of the `comments` table (`Comment` model). -/
structure Comment where
  id : Nat
  post_id : Nat
  user_id : Nat
  content : String
  created_at : Nat
deriving DecidableEq

/-- A row of the `likes` table (`Like` model).  Note the source declares no
uniqueness constraint over `(user_id, post_id)`. -/
structure Like where
  id : Nat
  post_id : Nat
  user_id : Nat
  created_at : Nat
deriving DecidableEq

/-- The visible database state: one list per table, in insertion (rowid)
order, plus per-table auto-increment counters and the current clock. -/
structure DBState where
  connections : List Connection
  posts : List Post
  comments : List Comment
  likes : List Like
  nextConnId : Nat
  nextPostId : Nat
  nextCommentId : Nat
  nextLikeId : Nat
  now : Nat
deriving DecidableEq

/-- SQLAlchemy `Result.scalar_one_or_none()`: `some none` for zero rows,
`some (some a)` for exactly one, and `none` for the `MultipleResultsFound`
exception (which the service methods catch, roll back, and turn into a
returned `None`). -/
def scalarOneOrNone : List α → Option (Option α)
  | [] => some none
  | [a] => some (some a)
  | _ => none

/-- The duplicate-pair predicate of `send_connection_request` (lines 24-29):
an existing row whose `(requester_id, addressee_id)` equals `(a, b)` in
either order. -/
def pairMatches (a b : Nat) (c : Connection) : Prop :=
  (c.requester_id = a ∧ c.addressee_id = b) ∨ (c.requester_id = b ∧ c.addressee_id = a)

instance : DecidablePred (pairMatches a b) := fun _ => by
  unfold pairMatches; infer_instance

/-- `SocialService.send_connection_request` (lines 20-54).  Looks up any
existing row for the unordered pair; on a hit (or on the
`MultipleResultsFound` exception) returns `None` without inserting;
otherwise inserts a new `PENDING` row and returns it.  There is no
`requester_id == addressee_id` guard in the source. -/
def sendConnectionRequest (requester_id addressee_id : Nat) (message : Option String)
    (s : DBState) : Option Connection × DBState :=
  match scalarOneOrNone (s.connections.filter fun c =>
      decide (pairMatches requester_id addressee_id c)) with
  | none => (none, s)
  | some (some _) => (none, s)
  | some none =>
    let c : Connection :=
      { id := s.nextConnId, requester_id := requester_id, addressee_id := addressee_id
        status := .pending, message := message, created_at := s.now }
    (some c, { s with connections := s.connections ++ [c], nextConnId := s.nextConnId + 1 })

/-- `SocialService.respond_to_connection` (lines 56-75).  Fetches the row by
primary key; returns `None` if absent or if the actor is not the addressee;
otherwise overwrites `status` with ACCEPTED/DECLINED.  The source performs
no check that the current status is PENDING. -/
def respondToConnection (connection_id user_id : Nat) (accept : Bool)
    (s : DBState) : Option Connection × DBState :=
  match s.connections.find? (fun c => decide (c.id = connection_id)) with
  | none => (none, s)
  | some c =>
    if c.addressee_id = user_id then
      let c' := { c with status := if accept then .accepted else .declined }
      (some c',
        { s with connections := s.connections.map fun x => if x.id = connection_id then c' else x })
    else (none, s)

/-- `SocialService.get_user_connections` (lines 77-95): rows touching the
user on either side with status ACCEPTED, in table order. -/
def getUserConnections (user_id : Nat) (s : DBState) : List Connection :=
  s.connections.filter fun c =>
    decide ((c.requester_id = user_id ∨ c.addressee_id = user_id) ∧ c.status = .accepted)

/-- `SocialService.get_pending_requests` (lines 97-112): rows addressed to
the user with status PENDING.  The source query applies no `order_by`, so
rows come back in table (insertion) order. -/
def getPendingRequests (user_id : Nat) (s : DBState) : List Connection :=
  s.connections.filter fun c =>
    decide (c.addressee_id = user_id ∧ c.status = .pending)

/-- The other-side resolution of `get_feed` lines 159-163: for a connection
touching `user_id`, the id on the opposite side. -/
def otherSide (user_id : Nat) (c : Connection) : Nat :=
  if c.requester_id = user_id then c.addressee_id else c.requester_id

/-- The audience of `get_feed` lines 156-166: the other side of each
accepted connection, with the user's own id appended. -/
def audienceIds (user_id : Nat) (s : DBState) : List Nat :=
  ((getUserConnections user_id s).map (otherSide user_id)) ++ [user_id]

/-- The feed ordering relation: `ORDER BY posts.created_at DESC`. -/
def feedLe (x y : Post) : Prop := y.created_at ≤ x.created_at

instance : DecidableRel feedLe := fun x y => by unfold feedLe; infer_instance

instance : IsTotal Post feedLe := ⟨fun x y => Nat.le_total y.created_at x.created_at⟩

instance : IsTrans Post feedLe := ⟨fun _ _ _ h h' => Nat.le_trans h' h⟩

/-- `SocialService.get_feed` (lines 152-181): posts whose author is in the
audience, ordered by `created_at` descending, then `OFFSET skip LIMIT lim`.
The query names no secondary sort key, so posts with equal `created_at`
keep their table order; the stable `insertionSort` models that. -/
def getFeed (user_id : Nat) (skip lim : Nat) (s : DBState) : List Post :=
  let audience := audienceIds user_id s
  ((List.insertionSort feedLe
      (s.posts.filter fun p => decide (p.user_id ∈ audience))).drop skip).take lim

/-- `SocialService.like_post` (lines 184-210): toggle.  With no existing
`(user_id, post_id)` row it inserts one and returns it; with exactly one it
deletes that row and returns `None`; with several, `scalar_one_or_none`
raises, the handler rolls back, and `None` is returned with the state
unchanged. -/
def likePost (user_id post_id : Nat) (s : DBState) : Option Like × DBState :=
  match scalarOneOrNone (s.likes.filter fun l =>
      decide (l.user_id = user_id ∧ l.post_id = post_id)) with
  | none => (none, s)
  | some (some l) => (none, { s with likes := s.likes.erase l })
  | some none =>
    let l : Like := { id := s.nextLikeId, post_id := post_id, user_id := user_id
                      created_at := s.now }
    (some l, { s with likes := s.likes ++ [l], nextLikeId := s.nextLikeId + 1 })

/-- `SocialService.comment_on_post` (lines 212-231): inserts the comment row
unconditionally — the source never checks that the post exists, and the
SQLite engine configured in `app/core/database.py` does not switch foreign
key enforcement on. -/
def commentOnPost (user_id post_id : Nat) (content : String)
    (s : DBState) : Option Comment × DBState :=
  let c : Comment := { id := s.nextCommentId, post_id := post_id, user_id := user_id
                       content := content, created_at := s.now }
  (some c, { s with comments := s.comments ++ [c], nextCommentId := s.nextCommentId + 1 })

/-- `Post.like_count` (`app/models/social.py` lines 55-58): the number of
`likes` rows belonging to the post. -/
def likeCount (post_id : Nat) (s : DBState) : Nat :=
  (s.likes.filter fun l => decide (l.post_id = post_id)).length

/-! Concrete database states used to instantiate the theorems below. -/

/-- A fresh, empty database. -/
def emptyDB : DBState := ⟨[], [], [], [], 1, 1, 1, 1, 0⟩

/-- One connection from user 1 to user 2, already ACCEPTED. -/
def acceptedPairDB : DBState := ⟨[⟨1, 1, 2, .accepted, none, 0⟩], [], [], [], 2, 1, 1, 1, 3⟩

/-- Two posts by user 1 with identical `created_at` and ids 5 and 7, inserted
in that order; no connections. -/
def tiedPostsDB : DBState := ⟨[], [⟨5, 1, "first", 10⟩, ⟨7, 1, "second", 10⟩], [], [], 1, 8, 1, 1, 20⟩

/-- Two PENDING requests addressed to user 2, the older (created_at 10)
inserted before the newer (created_at 20). -/
def pendingPairDB : DBState :=
  ⟨[⟨1, 3, 2, .pending, none, 10⟩, ⟨2, 4, 2, .pending, none, 20⟩], [], [], [], 3, 1, 1, 1, 30⟩

/-- Exactly one like row by user 1 on post 1. -/
def likedOnceDB : DBState := ⟨[], [], [], [⟨1, 1, 1, 0⟩], 1, 1, 1, 2, 5⟩

/-- Two like rows by user 1 on post 1 (the source has no uniqueness
constraint over `(user_id, post_id)`, so such a state is storable). -/
def likedTwiceDB : DBState := ⟨[], [], [], [⟨1, 1, 1, 0⟩, ⟨2, 1, 1, 0⟩], 1, 1, 1, 3, 5⟩

/-- One like row by user 9 on post 1; user 1 has not liked anything. -/
def otherLikeDB : DBState := ⟨[], [], [], [⟨1, 1, 9, 0⟩], 1, 1, 1, 2, 5⟩

/-- A single post with id 1 by user 1; no connections. -/
def singlePostDB : DBState := ⟨[], [⟨1, 1, "hello", 10⟩], [], [], 1, 2, 1, 1, 20⟩

/-! Helper lemmas about the embedded operations. -/

theorem pairMatches_swap {a b : Nat} {c : Connection} (h : pairMatches a b c) :
    pairMatches b a c := Or.symm h

theorem sendConnectionRequest_of_pair (a b : Nat) (m : Option String) (s : DBState)
    (c : Connection) (hc : c ∈ s.connections) (hp : pairMatches a b c) :
    sendConnectionRequest a b m s = (none, s) := by
  unfold sendConnectionRequest
  rcases hl : s.connections.filter (fun c => decide (pairMatches a b c)) with _ | ⟨x, t⟩
  · have hmem : c ∈ s.connections.filter (fun c => decide (pairMatches a b c)) :=
      List.mem_filter.2 ⟨hc, by simpa using hp⟩
    rw [hl] at hmem
    exact absurd hmem (List.not_mem_nil c)
  · cases t <;> simp [scalarOneOrNone]

theorem sendConnectionRequest_of_no_pair (a b : Nat) (m : Option String) (s : DBState)
    (h : ∀ c ∈ s.connections, ¬ pairMatches a b c) :
    sendConnectionRequest a b m s =
      (some ⟨s.nextConnId, a, b, .pending, m, s.now⟩,
       { s with connections := s.connections ++ [⟨s.nextConnId, a, b, .pending, m, s.now⟩],
                nextConnId := s.nextConnId + 1 }) := by
  have hl : s.connections.filter (fun c => decide (pairMatches a b c)) = [] :=
    List.filter_eq_nil_iff.2 (fun c hc => by simpa using h c hc)
  unfold sendConnectionRequest
  rw [hl]
  rfl

theorem send_isSome_no_pair (a b : Nat) (m : Option String) (s : DBState)
    (h : (sendConnectionRequest a b m s).fst.isSome) :
    ∀ c ∈ s.connections, ¬ pairMatches a b c := by
  intro c hc hp
  rw [sendConnectionRequest_of_pair a b m s c hc hp] at h
  simp at h

theorem likePost_of_no_like (U P : Nat) (s : DBState)
    (h : ∀ l ∈ s.likes, ¬ (l.user_id = U ∧ l.post_id = P)) :
    likePost U P s =
      (some ⟨s.nextLikeId, P, U, s.now⟩,
       { s with likes := s.likes ++ [⟨s.nextLikeId, P, U, s.now⟩],
                nextLikeId := s.nextLikeId + 1 }) := by
  have hl : s.likes.filter (fun l => decide (l.user_id = U ∧ l.post_id = P)) = [] :=
    List.filter_eq_nil_iff.2 (fun l hm => by simpa using h l hm)
  unfold likePost
  rw [hl]
  rfl

theorem likePost_of_single (U P : Nat) (s : DBState) (l0 : Like)
    (hf : s.likes.filter (fun l => decide (l.user_id = U ∧ l.post_id = P)) = [l0]) :
    likePost U P s = (none, { s with likes := s.likes.erase l0 }) := by
  unfold likePost
  rw [hf]
  rfl

theorem respondToConnection_found (cid uid : Nat) (accept : Bool) (s : DBState) (c : Connection)
    (hc : s.connections.find? (fun x => decide (x.id = cid)) = some c)
    (he : c.addressee_id = uid) :
    respondToConnection cid uid accept s =
      (some { c with status := if accept then .accepted else .declined },
       { s with connections := s.connections.map fun x =>
           if x.id = cid then { c with status := if accept then .accepted else .declined }
           else x }) := by
  unfold respondToConnection
  rw [hc]
  simp [he]

/-- C1: after `send_connection_request(A,B)` succeeds, any further request for
the unordered pair {A,B} — in either direction, and whatever the status of a
stored record for that pair — returns `None` (the duplicate-relationship
refusal) without inserting. -/
theorem send_request_duplicate_pair_blocked
    (A B : Nat) (m m2 m3 : Option String) (s t : DBState) (c0 : Connection)
    (hAB : A ≠ B)
    (h : (sendConnectionRequest A B m s).fst.isSome)
    (hc0 : c0 ∈ t.connections) (hp0 : pairMatches A B c0) :
    (sendConnectionRequest A B m2 (sendConnectionRequest A B m s).snd).fst = none ∧
    (sendConnectionRequest B A m2 (sendConnectionRequest A B m s).snd).fst = none ∧
    (sendConnectionRequest A B m3 t).fst = none ∧
    (sendConnectionRequest B A m3 t).fst = none := by
  have hnp := send_isSome_no_pair A B m s h
  have hs := sendConnectionRequest_of_no_pair A B m s hnp
  have hmem : (⟨s.nextConnId, A, B, .pending, m, s.now⟩ : Connection) ∈
      (sendConnectionRequest A B m s).snd.connections := by
    rw [hs]
    simp
  refine ⟨?_, ?_, ?_, ?_⟩
  · rw [sendConnectionRequest_of_pair A B m2 _ _ hmem (Or.inl ⟨rfl, rfl⟩)]
  · rw [sendConnectionRequest_of_pair B A m2 _ _ hmem (Or.inr ⟨rfl, rfl⟩)]
  · rw [sendConnectionRequest_of_pair A B m3 t c0 hc0 hp0]
  · rw [sendConnectionRequest_of_pair B A m3 t c0 hc0 (pairMatches_swap hp0)]

/-- Witness for C1 at A = 1, B = 2 starting from the empty database. -/
theorem send_request_duplicate_pair_blocked_witness :
    ((1 : Nat) ≠ 2 ∧ (sendConnectionRequest 1 2 none emptyDB).fst.isSome) ∧
    ((sendConnectionRequest 1 2 none (sendConnectionRequest 1 2 none emptyDB).snd).fst = none ∧
     (sendConnectionRequest 2 1 none (sendConnectionRequest 1 2 none emptyDB).snd).fst = none ∧
     (sendConnectionRequest 1 2 none (sendConnectionRequest 1 2 none emptyDB).snd).fst = none ∧
     (sendConnectionRequest 2 1 none (sendConnectionRequest 1 2 none emptyDB).snd).fst = none) :=
  ⟨⟨by decide, by decide⟩,
   send_request_duplicate_pair_blocked 1 2 none none none emptyDB
     (sendConnectionRequest 1 2 none emptyDB).snd ⟨1, 1, 2, .pending, none, 0⟩
     (by decide) (by decide) (by decide) (by decide)⟩

/-- C2 counterexample: on the empty database a self-request from user 1 does
not fail — it succeeds and stores a PENDING self-connection. -/
theorem self_request_succeeds_counterexample :
    (sendConnectionRequest 1 1 none emptyDB).fst = some ⟨1, 1, 1, .pending, none, 0⟩ ∧
    (sendConnectionRequest 1 1 none emptyDB).snd.connections = [⟨1, 1, 1, .pending, none, 0⟩] :=
  ⟨rfl, rfl⟩

/-- C2 amended: `send_connection_request` performs no self-request
validation: with no stored {A,A} record a self-request succeeds and creates
a PENDING self-connection; only a later self-request is refused, through the
generic duplicate-pair check. -/
theorem self_request_not_validated
    (A : Nat) (m m2 : Option String) (s t : DBState) (c0 : Connection)
    (h : ∀ c ∈ s.connections, ¬ pairMatches A A c)
    (hc0 : c0 ∈ t.connections) (hp0 : pairMatches A A c0) :
    (sendConnectionRequest A A m s).fst = some ⟨s.nextConnId, A, A, .pending, m, s.now⟩ ∧
    (sendConnectionRequest A A m s).snd.connections
      = s.connections ++ [⟨s.nextConnId, A, A, .pending, m, s.now⟩] ∧
    sendConnectionRequest A A m2 t = (none, t) := by
  refine ⟨?_, ?_, sendConnectionRequest_of_pair A A m2 t c0 hc0 hp0⟩ <;>
    rw [sendConnectionRequest_of_no_pair A A m s h]

/-- Witness for the amended C2 at A = 1 on the empty database. -/
theorem self_request_not_validated_witness :
    (sendConnectionRequest 1 1 none emptyDB).fst = some ⟨1, 1, 1, .pending, none, 0⟩ ∧
    (sendConnectionRequest 1 1 none emptyDB).snd.connections = [⟨1, 1, 1, .pending, none, 0⟩] ∧
    sendConnectionRequest 1 1 none (sendConnectionRequest 1 1 none emptyDB).snd
      = (none, (sendConnectionRequest 1 1 none emptyDB).snd) :=
  self_request_not_validated 1 none none emptyDB
    (sendConnectionRequest 1 1 none emptyDB).snd ⟨1, 1, 1, .pending, none, 0⟩
    (by decide) (by decide) (by decide)

/-- C3 counterexample: connection 1 (user 1 → user 2) is already ACCEPTED,
yet a second response by the addressee does not fail: it succeeds and
overwrites the stored record to DECLINED. -/
theorem respond_twice_succeeds_counterexample :
    (respondToConnection 1 2 false acceptedPairDB).fst = some ⟨1, 1, 2, .declined, none, 0⟩ ∧
    (respondToConnection 1 2 false acceptedPairDB).snd.connections
      = [⟨1, 1, 2, .declined, none, 0⟩] :=
  ⟨rfl, rfl⟩

/-- C3 amended: `respond_to_connection` returns `None` with the state
unchanged when the connection id is unknown or the actor is not the
addressee (so a requester distinct from the addressee can never approve
their own request), but it never checks the current status: a response by
the addressee always succeeds, overwriting even an ACCEPTED or DECLINED
status. -/
theorem respond_checks_addressee_only (cid uid : Nat) (accept : Bool) (s : DBState) :
    (s.connections.find? (fun c => decide (c.id = cid)) = none →
      respondToConnection cid uid accept s = (none, s)) ∧
    (∀ c, s.connections.find? (fun c => decide (c.id = cid)) = some c →
      c.addressee_id ≠ uid → respondToConnection cid uid accept s = (none, s)) ∧
    (∀ c, s.connections.find? (fun c => decide (c.id = cid)) = some c →
      c.addressee_id = uid →
      (respondToConnection cid uid accept s).fst
        = some { c with
            status := if accept then ConnectionStatus.accepted else ConnectionStatus.declined }) := by
  refine ⟨?_, ?_, ?_⟩
  · intro h
    unfold respondToConnection
    rw [h]
  · intro c hc hne
    unfold respondToConnection
    rw [hc]
    simp [hne]
  · intro c hc he
    unfold respondToConnection
    rw [hc]
    simp [he]

/-- Witness for the amended C3: the addressee re-declining the already
accepted connection of `acceptedPairDB` succeeds. -/
theorem respond_checks_addressee_only_witness :
    (respondToConnection 1 2 false acceptedPairDB).fst
      = some { (⟨1, 1, 2, .accepted, none, 0⟩ : Connection) with
          status := if false then ConnectionStatus.accepted else ConnectionStatus.declined } :=
  (respond_checks_addressee_only 1 2 false acceptedPairDB).2.2
    ⟨1, 1, 2, .accepted, none, 0⟩ rfl rfl

/-- C9 counterexample: with no posts stored at all, `comment_on_post` does
not fail with NotFound — it creates and returns a comment referencing the
nonexistent post 99. -/
theorem comment_without_post_counterexample :
    (commentOnPost 1 99 "hi" emptyDB).fst = some ⟨1, 99, 1, "hi", 0⟩ ∧
    (commentOnPost 1 99 "hi" emptyDB).snd.comments = [⟨1, 99, 1, "hi", 0⟩] ∧
    emptyDB.posts = [] :=
  ⟨rfl, rfl, rfl⟩

/-- C9 amended: `comment_on_post` never verifies that the post exists: even
when no stored post has id `post_id`, it appends and returns a comment row
referencing the missing post. -/
theorem comment_ignores_post_existence (uid pid : Nat) (content : String) (s : DBState)
    (h : ∀ p ∈ s.posts, p.id ≠ pid) :
    (commentOnPost uid pid content s).fst
      = some ⟨s.nextCommentId, pid, uid, content, s.now⟩ ∧
    (commentOnPost uid pid content s).snd.comments
      = s.comments ++ [⟨s.nextCommentId, pid, uid, content, s.now⟩] :=
  ⟨rfl, rfl⟩

/-- Witness for the amended C9 on the empty database. -/
theorem comment_ignores_post_existence_witness :
    (∀ p ∈ emptyDB.posts, p.id ≠ 99) ∧
    ((commentOnPost 1 99 "hello" emptyDB).fst = some ⟨1, 99, 1, "hello", 0⟩ ∧
     (commentOnPost 1 99 "hello" emptyDB).snd.comments = [⟨1, 99, 1, "hello", 0⟩]) :=
  ⟨by decide, comment_ignores_post_existence 1 99 "hello" emptyDB (by decide)⟩

/-- C10: `like_post` returns `None` both when it successfully removes an
existing like (the Unliked outcome) and when the lookup blows up (the
`MultipleResultsFound` path, caught and rolled back): the result alone
cannot tell a successful unlike from a failed operation; the like record is
returned only on the transition to liked. -/
theorem unlike_and_failure_both_return_none :
    (likePost 1 1 emptyDB).fst = some ⟨1, 1, 1, 0⟩ ∧
    (likePost 1 1 likedOnceDB).fst = none ∧
    (likePost 1 1 likedOnceDB).snd.likes = [] ∧
    (likePost 1 1 likedTwiceDB).fst = none ∧
    (likePost 1 1 likedTwiceDB).snd = likedTwiceDB :=
  ⟨rfl, rfl, rfl, rfl, rfl⟩

/-- C6: starting from any state holding no like by U on P, two successive
toggles return Liked (the created record) then Unliked (`none`); the
intermediate state holds exactly one like for (U, P), and after the second
call the like table — hence every post's `like_count` — equals its pre-call
value. -/
theorem toggle_like_round_trip (U P : Nat) (s : DBState)
    (h : ∀ l ∈ s.likes, ¬ (l.user_id = U ∧ l.post_id = P)) :
    (likePost U P s).fst = some ⟨s.nextLikeId, P, U, s.now⟩ ∧
    ((likePost U P s).snd.likes.filter fun l =>
        decide (l.user_id = U ∧ l.post_id = P)).length = 1 ∧
    (likePost U P (likePost U P s).snd).fst = none ∧
    (likePost U P (likePost U P s).snd).snd.likes = s.likes ∧
    ∀ pid, likeCount pid (likePost U P (likePost U P s).snd).snd = likeCount pid s := by
  have h1 := likePost_of_no_like U P s h
  have hl : s.likes.filter (fun l => decide (l.user_id = U ∧ l.post_id = P)) = [] :=
    List.filter_eq_nil_iff.2 (fun l hm => by simpa using h l hm)
  rw [h1]
  have hf1 : ((s.likes ++ [(⟨s.nextLikeId, P, U, s.now⟩ : Like)]).filter fun l =>
      decide (l.user_id = U ∧ l.post_id = P)) = [⟨s.nextLikeId, P, U, s.now⟩] := by
    rw [List.filter_append, hl]
    simp
  have hnot : (⟨s.nextLikeId, P, U, s.now⟩ : Like) ∉ s.likes :=
    fun hm => h _ hm ⟨rfl, rfl⟩
  have h2 := likePost_of_single U P
    { s with likes := s.likes ++ [(⟨s.nextLikeId, P, U, s.now⟩ : Like)],
             nextLikeId := s.nextLikeId + 1 }
    ⟨s.nextLikeId, P, U, s.now⟩ hf1
  have herase : (s.likes ++ [(⟨s.nextLikeId, P, U, s.now⟩ : Like)]).erase
      ⟨s.nextLikeId, P, U, s.now⟩ = s.likes := by
    rw [List.erase_append_right _ hnot, List.erase_cons_head]
    simp
  refine ⟨rfl, ?_, ?_, ?_, ?_⟩
  · show ((s.likes ++ [(⟨s.nextLikeId, P, U, s.now⟩ : Like)]).filter fun l =>
        decide (l.user_id = U ∧ l.post_id = P)).length = 1
    rw [hf1]
    rfl
  · rw [h2]
  · rw [h2]
    simpa using herase
  · intro pid
    rw [h2]
    simp [likeCount, herase]

/-- Witness for C6 at U = 1, P = 1 on a database where only user 9 has a
like stored. -/
theorem toggle_like_round_trip_witness :
    (likePost 1 1 otherLikeDB).fst = some ⟨2, 1, 1, 5⟩ ∧
    ((likePost 1 1 otherLikeDB).snd.likes.filter fun l =>
        decide (l.user_id = 1 ∧ l.post_id = 1)).length = 1 ∧
    (likePost 1 1 (likePost 1 1 otherLikeDB).snd).fst = none ∧
    (likePost 1 1 (likePost 1 1 otherLikeDB).snd).snd.likes = otherLikeDB.likes ∧
    likeCount 1 (likePost 1 1 (likePost 1 1 otherLikeDB).snd).snd = likeCount 1 otherLikeDB :=
  ⟨(toggle_like_round_trip 1 1 otherLikeDB (by decide)).1,
   (toggle_like_round_trip 1 1 otherLikeDB (by decide)).2.1,
   (toggle_like_round_trip 1 1 otherLikeDB (by decide)).2.2.1,
   (toggle_like_round_trip 1 1 otherLikeDB (by decide)).2.2.2.1,
   (toggle_like_round_trip 1 1 otherLikeDB (by decide)).2.2.2.2 1⟩

/-- C4: a successful request from A to B followed by the addressee B
accepting yields an ACCEPTED connection that `get_user_connections` reports
on both sides, the other-side resolution giving B for A and A for B. -/
theorem accept_makes_symmetric_connection
    (A B : Nat) (m : Option String) (s : DBState)
    (hAB : A ≠ B)
    (hfresh : ∀ x ∈ s.connections, x.id < s.nextConnId)
    (hnp : ∀ c ∈ s.connections, ¬ pairMatches A B c) :
    ∃ c, (sendConnectionRequest A B m s).fst = some c ∧
      ∃ c', (respondToConnection c.id B true (sendConnectionRequest A B m s).snd).fst = some c' ∧
        c'.status = .accepted ∧
        c' ∈ getUserConnections A
          (respondToConnection c.id B true (sendConnectionRequest A B m s).snd).snd ∧
        otherSide A c' = B ∧
        c' ∈ getUserConnections B
          (respondToConnection c.id B true (sendConnectionRequest A B m s).snd).snd ∧
        otherSide B c' = A := by
  have hs := sendConnectionRequest_of_no_pair A B m s hnp
  rw [hs]
  refine ⟨⟨s.nextConnId, A, B, .pending, m, s.now⟩, rfl, ?_⟩
  have hfind : List.find? (fun x => decide (x.id = s.nextConnId))
      (s.connections ++ [(⟨s.nextConnId, A, B, .pending, m, s.now⟩ : Connection)])
        = some ⟨s.nextConnId, A, B, .pending, m, s.now⟩ := by
    rw [List.find?_append]
    have h1 : List.find? (fun x => decide (x.id = s.nextConnId)) s.connections = none :=
      List.find?_eq_none.2 fun x hx => by simpa using Nat.ne_of_lt (hfresh x hx)
    rw [h1]
    simp
  have hresp := respondToConnection_found s.nextConnId B true
    { s with connections := s.connections ++ [(⟨s.nextConnId, A, B, .pending, m, s.now⟩ : Connection)],
             nextConnId := s.nextConnId + 1 }
    ⟨s.nextConnId, A, B, .pending, m, s.now⟩ hfind rfl
  have hmap : (s.connections ++ [(⟨s.nextConnId, A, B, .pending, m, s.now⟩ : Connection)]).map
      (fun x => if x.id = s.nextConnId then (⟨s.nextConnId, A, B, .accepted, m, s.now⟩ : Connection)
                else x)
        = s.connections ++ [(⟨s.nextConnId, A, B, .accepted, m, s.now⟩ : Connection)] := by
    rw [List.map_append]
    have h1 : s.connections.map
        (fun x => if x.id = s.nextConnId then (⟨s.nextConnId, A, B, .accepted, m, s.now⟩ : Connection)
                  else x) = s.connections := by
      have := List.map_congr_left (l := s.connections)
        (f := fun x => if x.id = s.nextConnId then (⟨s.nextConnId, A, B, .accepted, m, s.now⟩ : Connection) else x)
        (g := id) (fun x hx => if_neg (Nat.ne_of_lt (hfresh x hx)))
      rw [this, List.map_id]
    rw [h1]
    simp
  rw [hresp]
  refine ⟨⟨s.nextConnId, A, B, .accepted, m, s.now⟩, rfl, rfl, ?_, ?_, ?_, ?_⟩
  · show (⟨s.nextConnId, A, B, .accepted, m, s.now⟩ : Connection) ∈
      ((s.connections ++ [(⟨s.nextConnId, A, B, .pending, m, s.now⟩ : Connection)]).map
        (fun x => if x.id = s.nextConnId then (⟨s.nextConnId, A, B, .accepted, m, s.now⟩ : Connection)
                  else x)).filter fun c =>
        decide ((c.requester_id = A ∨ c.addressee_id = A) ∧ c.status = .accepted)
    rw [hmap]
    refine List.mem_filter.2 ⟨List.mem_append_right _ (List.mem_singleton_self _), by simp⟩
  · simp [otherSide]
  · show (⟨s.nextConnId, A, B, .accepted, m, s.now⟩ : Connection) ∈
      ((s.connections ++ [(⟨s.nextConnId, A, B, .pending, m, s.now⟩ : Connection)]).map
        (fun x => if x.id = s.nextConnId then (⟨s.nextConnId, A, B, .accepted, m, s.now⟩ : Connection)
                  else x)).filter fun c =>
        decide ((c.requester_id = B ∨ c.addressee_id = B) ∧ c.status = .accepted)
    rw [hmap]
    refine List.mem_filter.2 ⟨List.mem_append_right _ (List.mem_singleton_self _), by simp⟩
  · simp [otherSide, hAB]

/-- Witness for C4 at A = 1, B = 2 starting from the empty database. -/
theorem accept_makes_symmetric_connection_witness :
    ∃ c, (sendConnectionRequest 1 2 none emptyDB).fst = some c ∧
      ∃ c', (respondToConnection c.id 2 true (sendConnectionRequest 1 2 none emptyDB).snd).fst
          = some c' ∧
        c'.status = .accepted ∧
        c' ∈ getUserConnections 1
          (respondToConnection c.id 2 true (sendConnectionRequest 1 2 none emptyDB).snd).snd ∧
        otherSide 1 c' = 2 ∧
        c' ∈ getUserConnections 2
          (respondToConnection c.id 2 true (sendConnectionRequest 1 2 none emptyDB).snd).snd ∧
        otherSide 2 c' = 1 :=
  accept_makes_symmetric_connection 1 2 none emptyDB (by decide) (by decide) (by decide)

/-- C5: every post in a feed is authored by the user or by the other side of
one of their ACCEPTED connections (so posts of absent/PENDING/DECLINED
relations never appear), and with a single stored post authored by the user
and no accepted connections the feed is exactly that post. -/
theorem feed_audience_exact (U : Nat) (s : DBState) :
    (∀ skip lim q, q ∈ getFeed U skip lim s →
      q.user_id = U ∨ ∃ c ∈ s.connections, c.status = .accepted ∧
        ((c.requester_id = U ∧ c.addressee_id = q.user_id) ∨
         (c.addressee_id = U ∧ c.requester_id = q.user_id))) ∧
    (∀ p : Post, getUserConnections U s = [] → s.posts = [p] → p.user_id = U →
      getFeed U 0 20 s = [p]) := by
  constructor
  · intro skip lim q hq
    have hq1 : q ∈ List.insertionSort feedLe
        (s.posts.filter fun p => decide (p.user_id ∈ audienceIds U s)) :=
      (List.drop_subset _ _) ((List.take_subset _ _) hq)
    have hq2 : q ∈ s.posts.filter fun p => decide (p.user_id ∈ audienceIds U s) :=
      (List.mem_insertionSort feedLe).1 hq1
    have hpred : q.user_id ∈ audienceIds U s := by
      have := (List.mem_filter.1 hq2).2
      simpa using this
    rcases List.mem_append.1 hpred with hL | hR
    · obtain ⟨c, hcmem, hcother⟩ := List.mem_map.1 hL
      have hcfilter := List.mem_filter.1 hcmem
      have hcprop : (c.requester_id = U ∨ c.addressee_id = U) ∧ c.status = .accepted := by
        simpa using hcfilter.2
      refine Or.inr ⟨c, hcfilter.1, hcprop.2, ?_⟩
      by_cases hreq : c.requester_id = U
      · left
        refine ⟨hreq, ?_⟩
        rw [← hcother]
        unfold otherSide
        rw [if_pos hreq]
      · right
        refine ⟨hcprop.1.resolve_left hreq, ?_⟩
        rw [← hcother]
        unfold otherSide
        rw [if_neg hreq]
    · exact Or.inl (by simpa using hR)
  · intro p hconn hposts hpU
    have haud : p.user_id ∈ audienceIds U s := by
      rw [hpU]
      unfold audienceIds
      exact List.mem_append_right _ (List.mem_singleton_self _)
    show ((List.insertionSort feedLe
        (s.posts.filter fun q => decide (q.user_id ∈ audienceIds U s))).drop 0).take 20 = [p]
    rw [hposts]
    have hfil : (([p] : List Post).filter fun q => decide (q.user_id ∈ audienceIds U s)) = [p] := by
      simp [haud]
    rw [hfil]
    rfl

/-- Witness for C5 on a database holding exactly one post, authored by
user 1, and no connections. -/
theorem feed_audience_exact_witness :
    getUserConnections 1 singlePostDB = [] ∧
    singlePostDB.posts = [(⟨1, 1, "hello", 10⟩ : Post)] ∧
    getFeed 1 0 20 singlePostDB = [(⟨1, 1, "hello", 10⟩ : Post)] :=
  ⟨rfl, rfl, (feed_audience_exact 1 singlePostDB).2 ⟨1, 1, "hello", 10⟩ rfl rfl rfl⟩

/-- C7 counterexample: two posts by user 1 share `created_at` and have ids 5
and 7; the feed returns id 5 first (table order), not id 7 as the claimed
id-descending tie-break would require. -/
theorem feed_tiebreak_counterexample :
    (getFeed 1 0 20 tiedPostsDB).map Post.id = [5, 7] ∧
    (getFeed 1 0 20 tiedPostsDB).map Post.id ≠ [7, 5] :=
  ⟨rfl, by decide⟩

/-- C7 amended: `get_feed` orders by `created_at` descending only; the
query names no secondary key, so posts with equal `created_at` keep their
table order (id 5 before id 7 in `tiedPostsDB`) rather than id-descending. -/
theorem feed_sorted_desc_no_tiebreak (u skip lim : Nat) (s : DBState) :
    (getFeed u skip lim s).Pairwise feedLe ∧
    (getFeed 1 0 20 tiedPostsDB).map Post.id = [5, 7] := by
  constructor
  · have hsorted : (List.insertionSort feedLe (s.posts.filter fun p =>
        decide (p.user_id ∈ audienceIds u s))).Pairwise feedLe :=
      List.sorted_insertionSort feedLe _
    show ((((s.posts.filter fun p =>
        decide (p.user_id ∈ audienceIds u s)).insertionSort feedLe).drop skip).take lim).Pairwise feedLe
    exact hsorted.sublist ((List.take_sublist _ _).trans (List.drop_sublist _ _))
  · rfl

/-- C8 counterexample: two PENDING requests addressed to user 2 come back
oldest-first (created_at 10 before 20), not newest-first. -/
theorem pending_requests_order_counterexample :
    (getPendingRequests 2 pendingPairDB).map Connection.created_at = [10, 20] ∧
    (getPendingRequests 2 pendingPairDB).map Connection.created_at ≠ [20, 10] :=
  ⟨rfl, by decide⟩

/-- C8 amended: `get_pending_requests` returns exactly the connections
addressed to the user with status PENDING, as a sublist of the table in
insertion order — the source applies no newest-first ordering. -/
theorem pending_requests_filter_in_table_order (u : Nat) (s : DBState) :
    List.Sublist (getPendingRequests u s) s.connections ∧
    ∀ c, c ∈ getPendingRequests u s ↔
      c ∈ s.connections ∧ c.addressee_id = u ∧ c.status = .pending := by
  constructor
  · exact List.filter_sublist s.connections
  · intro c
    simp [getPendingRequests, List.mem_filter]

end Social
